import Mathlib

/-
Verification of the lmdb++ error-translation and resource-wrapping layer
(src/lmdb++.h) against its specification.

The layer is a thin shim over the LMDB C engine.  We embed it shallowly:

* Status codes are `Int` (C `int`).  The two distinguished codes and the
  success code come from the engine header <lmdb.h>.
* `lmdb::error` is a structure holding the string stored in its
  `std::runtime_error` base (the origin passed at construction) and the
  `_code` field.  The derived classes `key_exist_error` and
  `not_found_error` add no state; a thrown exception is modelled by the
  inductive `Exc`, whose three constructors record the dynamic type of the
  thrown object, each carrying the sliced base value.
* `what()` formats "origin: mdb_strerror(code)" with `std::snprintf` into a
  1024-byte `thread_local` buffer, so at most 1023 characters are kept.
  The engine's `mdb_strerror` is external; it is passed as a function
  parameter.  Characters model bytes (all strings involved are ASCII).
  `error.what` returns the string contents; `whatTL` additionally makes
  the shared per-thread buffer explicit as passed state, with the returned
  `char*` modelled by reading the buffer at a later time (`readBuffer`).
* Each procedural wrapper calls one engine primitive and inspects the
  returned status code.  The primitives are external to this layer, so each
  wrapper takes the primitive as a function parameter; a raised exception is
  modelled as `Except.error`.
-/

set_option autoImplicit false

namespace lmdb

/-- Success code of the engine, from <lmdb.h>. -/
def MDB_SUCCESS : Int := 0

/-- Status code for a key-uniqueness conflict, from <lmdb.h>. -/
def MDB_KEYEXIST : Int := -30799

/-- Status code for a missing key, from <lmdb.h>. -/
def MDB_NOTFOUND : Int := -30798

/-- The state of an `lmdb::error` object: the string held by its
`std::runtime_error` base (the origin passed to the constructor) and the
`_code` field. -/
structure error where
  runtimeErrorWhat : String
  _code : Int
deriving DecidableEq, Repr

/-- `lmdb::error::code()`: returns the `_code` field. -/
def error.code (e : error) : Int :=
  e._code

/-- `lmdb::error::origin()`: returns `runtime_error::what()`, i.e. the
string the base class was constructed with. -/
def error.origin (e : error) : String :=
  e.runtimeErrorWhat

/-- Capacity for characters of the `what()` buffer: `char buffer[1024]`
written by `std::snprintf`, which keeps at most 1023 characters plus the
terminating NUL. -/
def bufferCapacity : Nat := 1023

/-- `lmdb::error::what()`: formats "%s: %s" from `origin()` and
`mdb_strerror(code())` into the 1024-byte buffer, truncating to its
capacity.  `mdb_strerror` is the engine's code-to-string function, passed
as a parameter. -/
def error.what (e : error) (mdb_strerror : Int → String) : String :=
  String.mk ((e.origin ++ ": " ++ mdb_strerror e.code).data.take bufferCapacity)

/-- A thrown exception: one of the three dynamic types of the hierarchy,
each carrying the base-class state.  `key_exist_error` and
`not_found_error` are final classes adding no members beyond the base;
`generic` is the base class `lmdb::error` itself thrown by the default
branch (the spec's GenericError). -/
inductive Exc where
  | key_exist_error : error → Exc
  | not_found_error : error → Exc
  | generic : error → Exc
deriving DecidableEq, Repr

/-- The base-class view of a thrown exception: what a handler for
`lmdb::error&` catches, for any of the three dynamic types. -/
def Exc.base : Exc → error
  | .key_exist_error e => e
  | .not_found_error e => e
  | .generic e => e

/-- `lmdb::error::raise(origin, rc)`: the switch on `rc` with cases
`MDB_KEYEXIST` and `MDB_NOTFOUND` and a default branch, each throwing the
corresponding type constructed from `(origin, rc)`. -/
def error.raise (origin : String) (rc : Int) : Exc :=
  if rc = MDB_KEYEXIST then .key_exist_error ⟨origin, rc⟩
  else if rc = MDB_NOTFOUND then .not_found_error ⟨origin, rc⟩
  else .generic ⟨origin, rc⟩

/-- The contents of the `static thread_local char buffer[1024]` inside
`what()`, one per thread, shared by every `error` instance whose message is
formatted on that thread. -/
structure ThreadLocalBuffer where
  contents : List Char
deriving DecidableEq, Repr

/-- `what()` with the shared per-thread buffer made explicit: the call
overwrites the buffer with this instance's formatted, truncated message.
The returned `const char*` points into the buffer, so dereferencing it at
any later time yields the buffer contents at that time (`readBuffer`). -/
def whatTL (mdb_strerror : Int → String) (e : error)
    (buf : ThreadLocalBuffer) : ThreadLocalBuffer :=
  let _ := buf
  ⟨(e.origin ++ ": " ++ mdb_strerror e.code).data.take bufferCapacity⟩

/-- Dereference the pointer returned by a `what()` call: read the current
contents of that thread's buffer. -/
def readBuffer (buf : ThreadLocalBuffer) : String :=
  String.mk buf.contents

/-- Opaque `MDB_env*` handle; this layer never inspects it. -/
abbrev MDB_envPtr := Nat

/-- `lmdb::env_create(env)`: calls `mdb_env_create(env)`, which may write
the output slot, and raises with origin "mdb_env_create" when the returned
status code differs from `MDB_SUCCESS`.  The engine primitive is external;
it is passed as a function from the slot to the status code and the slot
it leaves behind. -/
def env_create (mdb_env_create : Option MDB_envPtr → Int × Option MDB_envPtr)
    (slot : Option MDB_envPtr) : Except Exc Unit × Option MDB_envPtr :=
  let r := mdb_env_create slot
  if r.1 ≠ MDB_SUCCESS then (Except.error (error.raise "mdb_env_create" r.1), r.2)
  else (Except.ok (), r.2)

/-- `lmdb::env_open(env, path, flags, mode)`: calls
`mdb_env_open(env, path, flags, mode)` and raises with origin
"mdb_env_open" when the status code differs from `MDB_SUCCESS`. -/
def env_open (mdb_env_open : MDB_envPtr → String → Nat → Nat → Int)
    (env : MDB_envPtr) (path : String) (flags : Nat) (mode : Nat) :
    Except Exc Unit :=
  let rc := mdb_env_open env path flags mode
  if rc ≠ MDB_SUCCESS then Except.error (error.raise "mdb_env_open" rc)
  else Except.ok ()

/-- `lmdb::env_close(env)`: calls `mdb_env_close(env)` (which returns
`void`) and returns; there is no raise path. -/
def env_close (mdb_env_close : MDB_envPtr → Unit) (env : MDB_envPtr) :
    Except Exc Unit :=
  let _ := mdb_env_close env
  Except.ok ()

/-- `lmdb::env_set_flags(env, flags, onoff)`: calls
`mdb_env_set_flags(env, flags, onoff ? 1 : 0)` and raises with origin
"mdb_env_set_flags" when the status code differs from `MDB_SUCCESS`. -/
def env_set_flags (mdb_env_set_flags : MDB_envPtr → Nat → Int → Int)
    (env : MDB_envPtr) (flags : Nat) (onoff : Bool) : Except Exc Unit :=
  let rc := mdb_env_set_flags env flags (if onoff then 1 else 0)
  if rc ≠ MDB_SUCCESS then Except.error (error.raise "mdb_env_set_flags" rc)
  else Except.ok ()

/-- `lmdb::env_set_map_size(env, size)`: calls
`mdb_env_set_mapsize(env, size)` and raises with origin
"mdb_env_set_mapsize" when the status code differs from `MDB_SUCCESS`. -/
def env_set_map_size (mdb_env_set_mapsize : MDB_envPtr → Nat → Int)
    (env : MDB_envPtr) (size : Nat) : Except Exc Unit :=
  let rc := mdb_env_set_mapsize env size
  if rc ≠ MDB_SUCCESS then Except.error (error.raise "mdb_env_set_mapsize" rc)
  else Except.ok ()

/-- `lmdb::env_set_max_readers(env, count)`: calls
`mdb_env_set_maxreaders(env, count)` and raises with origin
"mdb_env_set_maxreaders" when the status code differs from `MDB_SUCCESS`. -/
def env_set_max_readers (mdb_env_set_maxreaders : MDB_envPtr → Nat → Int)
    (env : MDB_envPtr) (count : Nat) : Except Exc Unit :=
  let rc := mdb_env_set_maxreaders env count
  if rc ≠ MDB_SUCCESS then Except.error (error.raise "mdb_env_set_maxreaders" rc)
  else Except.ok ()

/-- `lmdb::env_set_max_dbs(env, count)`: calls
`mdb_env_set_maxdbs(env, count)` and raises with origin
"mdb_env_set_maxdbs" when the status code differs from `MDB_SUCCESS`. -/
def env_set_max_dbs (mdb_env_set_maxdbs : MDB_envPtr → Nat → Int)
    (env : MDB_envPtr) (count : Nat) : Except Exc Unit :=
  let rc := mdb_env_set_maxdbs env count
  if rc ≠ MDB_SUCCESS then Except.error (error.raise "mdb_env_set_maxdbs" rc)
  else Except.ok ()

/-- `lmdb::env_sync(env, force)`: calls `mdb_env_sync(env, force)` and
raises with origin "mdb_env_sync" when the status code differs from
`MDB_SUCCESS`. -/
def env_sync (mdb_env_sync : MDB_envPtr → Bool → Int)
    (env : MDB_envPtr) (force : Bool) : Except Exc Unit :=
  let rc := mdb_env_sync env force
  if rc ≠ MDB_SUCCESS then Except.error (error.raise "mdb_env_sync" rc)
  else Except.ok ()

/-- Modelled from the spec: the engine primitive `mdb_env_create` is
external to this layer (declared in <lmdb.h>); the spec states that on
success it populates the output slot with a valid, unopened handle and
that on failure it fails before assignment, leaving the slot unchanged.
`h` is the fresh handle the engine would produce and `rc` the status code
it returns. -/
def mdb_env_create_model (rc : Int) (h : MDB_envPtr)
    (slot : Option MDB_envPtr) : Int × Option MDB_envPtr :=
  if rc = MDB_SUCCESS then (rc, some h) else (rc, slot)

/-- An origin string of 1024 characters, exceeding the `what()` buffer. -/
def longOrigin : String :=
  String.mk (List.replicate 1024 'a')

/- Helper lemmas shared by the claim theorems. -/

lemma raise_base (origin : String) (rc : Int) :
    (error.raise origin rc).base = ⟨origin, rc⟩ := by
  unfold error.raise
  split
  · rfl
  · split <;> rfl

lemma status_check_ok_iff (rc : Int) (name : String) :
    ((if rc ≠ MDB_SUCCESS then Except.error (error.raise name rc)
        else Except.ok ()) = (Except.ok () : Except Exc Unit)) ↔ rc = MDB_SUCCESS := by
  by_cases h : rc = MDB_SUCCESS <;> simp [h]

lemma status_check_error (rc : Int) (name : String) (h : rc ≠ MDB_SUCCESS) :
    (if rc ≠ MDB_SUCCESS then Except.error (error.raise name rc)
        else Except.ok ()) = (Except.error (error.raise name rc) : Except Exc Unit) := by
  simp [h]

lemma origin_of_status_check (rc : Int) (name : String) (e : Exc)
    (h : (if rc ≠ MDB_SUCCESS then Except.error (error.raise name rc)
        else (Except.ok () : Except Exc Unit)) = Except.error e) :
    e.base.origin = name := by
  by_cases hrc : rc = MDB_SUCCESS
  · simp [hrc] at h
  · rw [status_check_error rc name hrc] at h
    cases h
    rw [raise_base]
    rfl

/-- C1: `lmdb::error::raise` maps `MDB_KEYEXIST` to a thrown
`key_exist_error`, `MDB_NOTFOUND` to a thrown `not_found_error`, and every
other status code to the generic `error`, for every origin string; the
switch is total, so any unanticipated code takes the default branch and
still raises the generic variant. -/
theorem raise_classification (origin : String) (rc : Int) :
    (rc = MDB_KEYEXIST → error.raise origin rc = Exc.key_exist_error ⟨origin, rc⟩)
    ∧ (rc = MDB_NOTFOUND → error.raise origin rc = Exc.not_found_error ⟨origin, rc⟩)
    ∧ (rc ≠ MDB_KEYEXIST → rc ≠ MDB_NOTFOUND →
        error.raise origin rc = Exc.generic ⟨origin, rc⟩) := by
  refine ⟨fun h => ?_, fun h => ?_, fun h₁ h₂ => ?_⟩
  · subst h
    simp [error.raise, MDB_KEYEXIST, MDB_NOTFOUND]
  · subst h
    simp [error.raise, MDB_KEYEXIST, MDB_NOTFOUND]
  · simp [error.raise, h₁, h₂]

/-- Witness for C1 at concrete inputs: the two distinguished codes and an
arbitrary other code. -/
theorem raise_classification_w :
    error.raise "op" (-30799) = Exc.key_exist_error ⟨"op", -30799⟩
    ∧ error.raise "op" (-30798) = Exc.not_found_error ⟨"op", -30798⟩
    ∧ error.raise "op" 5 = Exc.generic ⟨"op", 5⟩ :=
  ⟨(raise_classification "op" (-30799)).1 rfl,
   (raise_classification "op" (-30798)).2.1 rfl,
   (raise_classification "op" 5).2.2 (by decide) (by decide)⟩

/-- C4: the error value produced by the dispatch routine for any origin
and nonzero status code satisfies `code() = rc` and `origin() = origin`;
both accessors are pure projections of the construction-time state
(`const noexcept` functions reading the stored fields), so repeated calls
in any order return the same values and do not modify the error value. -/
theorem raise_accessors (origin : String) (rc : Int) (h : rc ≠ 0) :
    ((error.raise origin rc).base).code = rc
    ∧ ((error.raise origin rc).base).origin = origin := by
  rw [raise_base]
  exact ⟨rfl, rfl⟩

/-- Witness for C4 at origin "mdb_env_open" and status code 22. -/
theorem raise_accessors_w :
    ((error.raise "mdb_env_open" 22).base).code = 22
    ∧ ((error.raise "mdb_env_open" 22).base).origin = "mdb_env_open" :=
  raise_accessors "mdb_env_open" 22 (by decide)

/-- C6: raising with the key-exists code always produces a
`key_exist_error` and raising with the not-found code always produces a
`not_found_error`; every raised value, whichever its dynamic type, is a
valid instance of the base `lmdb::error` (a handler for the base catches
all three variants) and honours the base accessor contract, so the
classification refines the base contract rather than replacing it. -/
theorem raise_refines_base (origin : String) :
    error.raise origin MDB_KEYEXIST = Exc.key_exist_error ⟨origin, MDB_KEYEXIST⟩
    ∧ error.raise origin MDB_NOTFOUND = Exc.not_found_error ⟨origin, MDB_NOTFOUND⟩
    ∧ ∀ rc : Int, ((error.raise origin rc).base).origin = origin
        ∧ ((error.raise origin rc).base).code = rc := by
  refine ⟨?_, ?_, fun rc => ?_⟩
  · simp [error.raise, MDB_KEYEXIST, MDB_NOTFOUND]
  · simp [error.raise, MDB_KEYEXIST, MDB_NOTFOUND]
  · rw [raise_base]
    exact ⟨rfl, rfl⟩

/-- C10: the dispatch is total over all integer status codes and every
input produces a thrown exception; in particular status code 0
(`MDB_SUCCESS`, violating the documented nonzero precondition) takes the
default branch and still throws the generic variant carrying code 0 and
the given origin. -/
theorem raise_total (origin : String) :
    error.raise origin 0 = Exc.generic ⟨origin, 0⟩
    ∧ ∀ rc : Int, (error.raise origin rc).base = ⟨origin, rc⟩ := by
  refine ⟨?_, fun rc => raise_base origin rc⟩
  simp [error.raise, MDB_KEYEXIST, MDB_NOTFOUND]

/-- C2: each of the seven fallible wrappers returns normally exactly when
the single engine call it makes returns `MDB_SUCCESS`, and otherwise its
result is exactly one invocation of the error dispatch with that
operation's name literal and the observed status code — nothing else
(no retry, no recovery, no suppression).  The engine primitives are
universally quantified, so this holds whatever the engine does. -/
theorem wrappers_raise_iff
    (createP : Option MDB_envPtr → Int × Option MDB_envPtr)
    (openP : MDB_envPtr → String → Nat → Nat → Int)
    (flagsP : MDB_envPtr → Nat → Int → Int)
    (mapsizeP : MDB_envPtr → Nat → Int)
    (readersP : MDB_envPtr → Nat → Int)
    (dbsP : MDB_envPtr → Nat → Int)
    (syncP : MDB_envPtr → Bool → Int) :
    (∀ slot, ((env_create createP slot).1 = Except.ok ()
          ↔ (createP slot).1 = MDB_SUCCESS)
      ∧ ((createP slot).1 ≠ MDB_SUCCESS → (env_create createP slot).1
          = Except.error (error.raise "mdb_env_create" (createP slot).1)))
    ∧ (∀ env path flags mode, (env_open openP env path flags mode = Except.ok ()
          ↔ openP env path flags mode = MDB_SUCCESS)
      ∧ (openP env path flags mode ≠ MDB_SUCCESS → env_open openP env path flags mode
          = Except.error (error.raise "mdb_env_open" (openP env path flags mode))))
    ∧ (∀ env flags onoff, (env_set_flags flagsP env flags onoff = Except.ok ()
          ↔ flagsP env flags (if onoff then 1 else 0) = MDB_SUCCESS)
      ∧ (flagsP env flags (if onoff then 1 else 0) ≠ MDB_SUCCESS →
          env_set_flags flagsP env flags onoff = Except.error
            (error.raise "mdb_env_set_flags" (flagsP env flags (if onoff then 1 else 0)))))
    ∧ (∀ env size, (env_set_map_size mapsizeP env size = Except.ok ()
          ↔ mapsizeP env size = MDB_SUCCESS)
      ∧ (mapsizeP env size ≠ MDB_SUCCESS → env_set_map_size mapsizeP env size
          = Except.error (error.raise "mdb_env_set_mapsize" (mapsizeP env size))))
    ∧ (∀ env count, (env_set_max_readers readersP env count = Except.ok ()
          ↔ readersP env count = MDB_SUCCESS)
      ∧ (readersP env count ≠ MDB_SUCCESS → env_set_max_readers readersP env count
          = Except.error (error.raise "mdb_env_set_maxreaders" (readersP env count))))
    ∧ (∀ env count, (env_set_max_dbs dbsP env count = Except.ok ()
          ↔ dbsP env count = MDB_SUCCESS)
      ∧ (dbsP env count ≠ MDB_SUCCESS → env_set_max_dbs dbsP env count
          = Except.error (error.raise "mdb_env_set_maxdbs" (dbsP env count))))
    ∧ (∀ env force, (env_sync syncP env force = Except.ok ()
          ↔ syncP env force = MDB_SUCCESS)
      ∧ (syncP env force ≠ MDB_SUCCESS → env_sync syncP env force
          = Except.error (error.raise "mdb_env_sync" (syncP env force)))) := by
  refine ⟨fun slot => ?_, fun env path flags mode => ?_, fun env flags onoff => ?_,
    fun env size => ?_, fun env count => ?_, fun env count => ?_, fun env force => ?_⟩
  · by_cases h : (createP slot).1 = MDB_SUCCESS <;> simp [env_create, h]
  · by_cases h : openP env path flags mode = MDB_SUCCESS <;> simp [env_open, h]
  · by_cases h : flagsP env flags (if onoff then 1 else 0) = MDB_SUCCESS <;>
      simp [env_set_flags, h]
  · by_cases h : mapsizeP env size = MDB_SUCCESS <;> simp [env_set_map_size, h]
  · by_cases h : readersP env count = MDB_SUCCESS <;> simp [env_set_max_readers, h]
  · by_cases h : dbsP env count = MDB_SUCCESS <;> simp [env_set_max_dbs, h]
  · by_cases h : syncP env force = MDB_SUCCESS <;> simp [env_sync, h]

/-- Witness for C2: with an engine whose open call fails with -7 and whose
sync call succeeds, `env_open` raises exactly the dispatched error and
`env_sync` returns normally. -/
theorem wrappers_raise_iff_w :
    env_open (fun _ _ _ _ => -7) 0 "p" 0 0
      = Except.error (error.raise "mdb_env_open" (-7))
    ∧ env_sync (fun _ _ => 0) 0 true = Except.ok () := by
  have h := wrappers_raise_iff (fun _ => (-7, none)) (fun _ _ _ _ => -7)
    (fun _ _ _ => -7) (fun _ _ => -7) (fun _ _ => -7) (fun _ _ => -7) (fun _ _ => 0)
  exact ⟨(h.2.1 0 "p" 0 0).2 (by decide), (h.2.2.2.2.2.2 0 true).1.mpr rfl⟩

/-- C3: `lmdb::env_close` has no raise path: for every close primitive and
every handle (including one whose prior open failed or that was never
opened), it forwards to the primitive and returns normally. -/
theorem env_close_never_raises (closeP : MDB_envPtr → Unit) (env : MDB_envPtr) :
    env_close closeP env = Except.ok () :=
  rfl

/-- C7: any error raised by a wrapped operation carries as `origin()`
exactly the stable literal name of the underlying primitive, exhaustively
across the seven fallible procedures, and `env_close` raises nothing. -/
theorem wrappers_origin
    (createP : Option MDB_envPtr → Int × Option MDB_envPtr)
    (openP : MDB_envPtr → String → Nat → Nat → Int)
    (flagsP : MDB_envPtr → Nat → Int → Int)
    (mapsizeP : MDB_envPtr → Nat → Int)
    (readersP : MDB_envPtr → Nat → Int)
    (dbsP : MDB_envPtr → Nat → Int)
    (syncP : MDB_envPtr → Bool → Int) :
    (∀ slot e, (env_create createP slot).1 = Except.error e →
        e.base.origin = "mdb_env_create")
    ∧ (∀ env path flags mode e, env_open openP env path flags mode = Except.error e →
        e.base.origin = "mdb_env_open")
    ∧ (∀ env flags onoff e, env_set_flags flagsP env flags onoff = Except.error e →
        e.base.origin = "mdb_env_set_flags")
    ∧ (∀ env size e, env_set_map_size mapsizeP env size = Except.error e →
        e.base.origin = "mdb_env_set_mapsize")
    ∧ (∀ env count e, env_set_max_readers readersP env count = Except.error e →
        e.base.origin = "mdb_env_set_maxreaders")
    ∧ (∀ env count e, env_set_max_dbs dbsP env count = Except.error e →
        e.base.origin = "mdb_env_set_maxdbs")
    ∧ (∀ env force e, env_sync syncP env force = Except.error e →
        e.base.origin = "mdb_env_sync")
    ∧ (∀ closeP env e, env_close closeP env ≠ Except.error e) := by
  refine ⟨fun slot e he => ?_, fun env path flags mode e he => ?_,
    fun env flags onoff e he => ?_, fun env size e he => ?_,
    fun env count e he => ?_, fun env count e he => ?_,
    fun env force e he => ?_, fun closeP env e => by simp [env_close]⟩
  · refine origin_of_status_check (createP slot).1 "mdb_env_create" e ?_
    rw [← he]
    unfold env_create
    by_cases h : (createP slot).1 = MDB_SUCCESS <;> simp [h]
  · exact origin_of_status_check (openP env path flags mode) "mdb_env_open" e he
  · exact origin_of_status_check (flagsP env flags (if onoff then 1 else 0))
      "mdb_env_set_flags" e he
  · exact origin_of_status_check (mapsizeP env size) "mdb_env_set_mapsize" e he
  · exact origin_of_status_check (readersP env count) "mdb_env_set_maxreaders" e he
  · exact origin_of_status_check (dbsP env count) "mdb_env_set_maxdbs" e he
  · exact origin_of_status_check (syncP env force) "mdb_env_sync" e he

/-- Witness for C7: a failing open call yields an error whose origin is
the literal "mdb_env_open". -/
theorem wrappers_origin_w :
    (error.raise "mdb_env_open" (-7)).base.origin = "mdb_env_open" :=
  (wrappers_origin (fun _ => (-7, none)) (fun _ _ _ _ => -7) (fun _ _ _ => -7)
      (fun _ _ => -7) (fun _ _ => -7) (fun _ _ => -7) (fun _ _ => 0)).2.1
    0 "p" 0 0 (error.raise "mdb_env_open" (-7))
    (by simp [env_open, MDB_SUCCESS])

/-- C8: under the spec's contract for the external creation primitive
(failure leaves the slot unchanged, success populates it), `env_create`
leaves the caller's slot exactly as it was whenever it raises, and leaves
it populated whenever it returns normally. -/
theorem env_create_slot
    (createP : Option MDB_envPtr → Int × Option MDB_envPtr)
    (slot : Option MDB_envPtr)
    (hfail : ∀ s, (createP s).1 ≠ MDB_SUCCESS → (createP s).2 = s)
    (hok : ∀ s, (createP s).1 = MDB_SUCCESS → (createP s).2.isSome) :
    (∀ e, (env_create createP slot).1 = Except.error e →
        (env_create createP slot).2 = slot)
    ∧ ((env_create createP slot).1 = Except.ok () →
        (env_create createP slot).2.isSome) := by
  by_cases h : (createP slot).1 = MDB_SUCCESS
  · refine ⟨fun e he => absurd he ?_, fun _ => ?_⟩
    · simp [env_create, h]
    · simpa [env_create, h] using hok slot h
  · refine ⟨fun e _ => ?_, fun hcontra => absurd hcontra ?_⟩
    · simpa [env_create, h] using hfail slot h
    · simp [env_create, h]

/-- Witness for C8 through the spec-modelled creation primitive: a failing
creation (status -30792) leaves the slot at its prior value, and a
successful one populates it. -/
theorem env_create_slot_w :
    (env_create (mdb_env_create_model (-30792) 7) (some 3)).2 = some 3
    ∧ (env_create (mdb_env_create_model 0 7) none).2.isSome := by
  constructor
  · exact (env_create_slot (mdb_env_create_model (-30792) 7) (some 3)
        (fun s _ => by simp [mdb_env_create_model, MDB_SUCCESS])
        (fun s hs => absurd hs (by simp [mdb_env_create_model, MDB_SUCCESS]))).1
      (error.raise "mdb_env_create" (-30792))
      (by simp [env_create, mdb_env_create_model, MDB_SUCCESS])
  · exact (env_create_slot (mdb_env_create_model 0 7) none
        (fun s hs => absurd (by simp [mdb_env_create_model, MDB_SUCCESS]) hs)
        (fun s _ => by simp [mdb_env_create_model, MDB_SUCCESS])).2
      (by simp [env_create, mdb_env_create_model, MDB_SUCCESS])

lemma what_length_le (e : error) (strerror : Int → String) :
    (e.what strerror).length ≤ bufferCapacity := by
  unfold error.what
  show ((e.origin ++ ": " ++ strerror e.code).data.take bufferCapacity).length
    ≤ bufferCapacity
  rw [List.length_take]
  exact min_le_left _ _

/-- C5 counterexample: the claim that the formatted message equals
`origin ++ ": " ++ mdb_strerror(code)` for every raised error fails,
because `what()` formats with `std::snprintf` into a fixed
`char buffer[1024]`: with a 1024-character origin the message is truncated
to 1023 characters and is strictly shorter than the full concatenation. -/
theorem what_truncation_cex :
    (error.raise longOrigin 22).base.what (fun _ => "err")
      ≠ longOrigin ++ ": " ++ "err" := by
  intro hEq
  have hle := what_length_le (error.raise longOrigin 22).base (fun _ => "err")
  rw [hEq] at hle
  have h1 : longOrigin.length = 1024 := by
    show (List.replicate 1024 'a').length = 1024
    rw [List.length_replicate]
  rw [String.length_append, String.length_append, h1] at hle
  exact absurd hle (by decide)

/-- C5 (amended): the formatted message of a raised error is
`origin ++ ": " ++ mdb_strerror(code)` truncated to the 1023-character
capacity of the `what()` buffer, so the claimed equality holds exactly
when the full concatenation fits in the buffer; the message is computed
when queried, from the stored origin and code alone (it depends on the
engine's string table only through its value at the stored code), not
precomputed at construction or raise time. -/
theorem what_message (e : error) (strerror : Int → String) :
    e.what strerror
      = String.mk ((e.origin ++ ": " ++ strerror e.code).data.take bufferCapacity)
    ∧ ((e.origin ++ ": " ++ strerror e.code).data.length ≤ bufferCapacity →
        e.what strerror = e.origin ++ ": " ++ strerror e.code)
    ∧ (∀ s₁ s₂ : Int → String, s₁ e.code = s₂ e.code → e.what s₁ = e.what s₂) := by
  refine ⟨rfl, fun h => ?_, fun s₁ s₂ hs => ?_⟩
  · unfold error.what
    rw [List.take_of_length_le h]
  · unfold error.what
    rw [hs]

/-- Witness for C5 (amended): a short message, as every message this layer
itself raises, is formatted exactly as origin, separator, engine text. -/
theorem what_message_w :
    (error.mk "mdb_env_sync" 1).what (fun _ => "err")
      = "mdb_env_sync" ++ ": " ++ "err" :=
  (what_message ⟨"mdb_env_sync", 1⟩ (fun _ => "err")).2.1 (by decide)

/-- C9 counterexample: messages of distinct error instances are not stored
independently.  `what()` writes into the single `thread_local` buffer
shared by all instances on a thread: after instance `⟨"a", 1⟩` is queried
the buffer (which its returned pointer references) holds "a: x", and
querying the distinct instance `⟨"b", 2⟩` on the same thread overwrites it
with "b: x", altering the string obtainable through the first pointer. -/
theorem whatTL_shared_cex :
    readBuffer (whatTL (fun _ => "x") ⟨"a", 1⟩ ⟨[]⟩) = "a: x"
    ∧ readBuffer (whatTL (fun _ => "x") ⟨"b", 2⟩ (whatTL (fun _ => "x") ⟨"a", 1⟩ ⟨[]⟩))
        = "b: x"
    ∧ ("b: x" : String) ≠ "a: x" := by
  refine ⟨?_, ?_, ?_⟩ <;> decide

/-- C9 (amended): on one thread the buffer is shared across instances, so
a later `what()` call overwrites the shared storage regardless of what an
earlier call left there (a returned string is only valid until the next
query on that thread); immediately after any query the buffer holds the
querying instance's own correct (truncated) message.  Distinct threads
have distinct `thread_local` buffers, modelled as distinct buffer states,
so only same-thread queries interfere. -/
theorem whatTL_last_query (strerror : Int → String) (e₁ e₂ : error)
    (buf : ThreadLocalBuffer) :
    whatTL strerror e₂ (whatTL strerror e₁ buf) = whatTL strerror e₂ buf
    ∧ readBuffer (whatTL strerror e₂ buf) = e₂.what strerror :=
  ⟨rfl, rfl⟩

end lmdb
